import Mathlib

/-!
# Verification of the crowd-positioning scanner (`scan_enhanced.py`)

A shallow embedding of the bounded-concurrency scan-and-aggregate pipeline:
the per-symbol signal evaluator (`process_symbol`), the upsert-based result
sink, the HTTP failure handling, and a small-step model of the
semaphore-bounded scheduler with its queue-draining writer task.

Numeric fields that the Python code holds as `float` are modelled as `ℚ`;
the code only compares and stores them (no float-specific arithmetic is
involved in the verified properties).  JSON fields that may be missing or
unparseable are modelled as `Option` values: `none` stands for "fetch
returned no data" / "float(x) raised" (= `f(x)` returning `None`).
-/

namespace CryptoScan

/- ===== Configuration constants (scan_enhanced.py, lines 19-35) ===== -/

def PERIOD : String := "5m"

def MIN_OI_USDT : ℚ := 2500000

/-- Setup A thresholds: crowd SHORT, top traders not short. -/
def TOP_ACC_SHORT_MIN : ℚ := 0.65

def GLOBAL_ACC_SHORT_MIN : ℚ := 0.65

def TOP_POS_LONG_MIN : ℚ := 0.45

/-- Setup B thresholds: crowd LONG, top traders not long. -/
def TOP_ACC_LONG_MIN : ℚ := 0.65

def GLOBAL_ACC_LONG_MIN : ℚ := 0.65

def TOP_POS_SHORT_MIN : ℚ := 0.45

/- ===== Data model ===== -/

/-- One lens measurement as seen by `process_symbol` after `latest_async`:
the raw JSON dict's `timestamp` field (absent ⇒ `none`; the code reads it
with `.get("timestamp", 0)`), and the two directional fractions after the
float-parse `f` (`none` = field missing or unparseable). -/
structure RatioSnapshot where
  timestamp : Option Int
  longAccount : Option ℚ
  shortAccount : Option ℚ
  deriving DecidableEq, Repr

/-- The open-interest history row: `f(oi.get("sumOpenInterestValue"))`. -/
structure OpenInterestRow where
  sumOpenInterestValue : Option ℚ
  deriving DecidableEq, Repr

/-- Everything the network returns to one `process_symbol` call: the three
ratio lenses, the open-interest row, and the enrichment values
(`get_premium_data_async` and `get_volume_data_async` return `None` parts
on any failure without aborting). -/
structure FetchData where
  top_acc : Option RatioSnapshot
  glob_acc : Option RatioSnapshot
  top_pos : Option RatioSnapshot
  oi : Option OpenInterestRow
  funding_rate : Option ℚ
  current_price : Option ℚ
  volume_24h : Option ℚ
  volume_2h : Option ℚ
  deriving DecidableEq, Repr

/-- One row of `scan_hits` as enqueued by `process_symbol`
(the 15-tuple put on `insert_queue`, lines 316-327). -/
structure SignalRecord where
  run_id : Int
  symbol : String
  setup : String
  timestamp_ms : Int
  oi_usdt : ℚ
  top_acc_long : ℚ
  top_acc_short : ℚ
  glob_acc_long : ℚ
  glob_acc_short : ℚ
  top_pos_long : ℚ
  top_pos_short : ℚ
  funding_rate : Option ℚ
  current_price : Option ℚ
  volume_24h : Option ℚ
  volume_2h : Option ℚ
  deriving DecidableEq, Repr

/-- The API endpoints `process_symbol` can hit, in the order the stages
fetch them. -/
inductive Endpoint where
  | topAccount
  | globAccount
  | topPosition
  | openInterestHist
  | premiumIndex
  | ticker24h
  | klines
  deriving DecidableEq, Repr

/-- The three stage-1 lens fetches; `process_symbol` awaits all three
before testing any of them. -/
def lensFetches : List Endpoint :=
  [Endpoint.topAccount, Endpoint.globAccount, Endpoint.topPosition]

/-- Result of evaluating one symbol: the records enqueued and the
endpoints that were fetched along the way. -/
structure EvalResult where
  records : List SignalRecord
  fetched : List Endpoint
  deriving DecidableEq, Repr

/- ===== Per-symbol evaluator (process_symbol, lines 264-332) ===== -/

/-- Line 292: `ta_short >= TOP_ACC_SHORT_MIN and ga_short >= GLOBAL_ACC_SHORT_MIN
and tp_long >= TOP_POS_LONG_MIN`. -/
def setup_a_holds (ta_short ga_short tp_long : ℚ) : Bool :=
  decide (TOP_ACC_SHORT_MIN ≤ ta_short) &&
  decide (GLOBAL_ACC_SHORT_MIN ≤ ga_short) &&
  decide (TOP_POS_LONG_MIN ≤ tp_long)

/-- Line 293: `ta_long >= TOP_ACC_LONG_MIN and ga_long >= GLOBAL_ACC_LONG_MIN
and tp_short >= TOP_POS_SHORT_MIN`. -/
def setup_b_holds (ta_long ga_long tp_short : ℚ) : Bool :=
  decide (TOP_ACC_LONG_MIN ≤ ta_long) &&
  decide (GLOBAL_ACC_LONG_MIN ≤ ga_long) &&
  decide (TOP_POS_SHORT_MIN ≤ tp_short)

/-- Build the tuple enqueued at lines 316-320 / 323-327; the two setups
share every field except the `setup` tag. -/
def mkRecord (run_id : Int) (sym setupTag : String) (ts_ms : Int)
    (oi_usdt ta_long ta_short ga_long ga_short tp_long tp_short : ℚ)
    (fd : FetchData) : SignalRecord :=
  { run_id := run_id
    symbol := sym
    setup := setupTag
    timestamp_ms := ts_ms
    oi_usdt := oi_usdt
    top_acc_long := ta_long
    top_acc_short := ta_short
    glob_acc_long := ga_long
    glob_acc_short := ga_short
    top_pos_long := tp_long
    top_pos_short := tp_short
    funding_rate := fd.funding_rate
    current_price := fd.current_price
    volume_24h := fd.volume_24h
    volume_2h := fd.volume_2h }

/-- The cascade of `process_symbol` (lines 274-327):
stage 1 fetches the three lenses and aborts if any lens or any of the six
parsed fractions is missing; stage 2 tests the two setup predicates and
aborts if neither holds; stage 3 fetches open interest and aborts if it is
missing, unparseable, or `< MIN_OI_USDT`; stage 4 fetches the enrichment
endpoints; stage 5 enqueues one record per satisfied setup. -/
def process_symbol (run_id : Int) (sym : String) (fd : FetchData) : EvalResult :=
  match fd.top_acc, fd.glob_acc, fd.top_pos with
  | some top_acc, some glob_acc, some top_pos =>
    match top_acc.longAccount, top_acc.shortAccount,
          glob_acc.longAccount, glob_acc.shortAccount,
          top_pos.longAccount, top_pos.shortAccount with
    | some ta_long, some ta_short, some ga_long, some ga_short,
      some tp_long, some tp_short =>
      let ts_ms : Int := top_acc.timestamp.getD 0
      let setup_a := setup_a_holds ta_short ga_short tp_long
      let setup_b := setup_b_holds ta_long ga_long tp_short
      if setup_a || setup_b then
        match fd.oi with
        | none => { records := [], fetched := lensFetches ++ [Endpoint.openInterestHist] }
        | some oi =>
          match oi.sumOpenInterestValue with
          | none => { records := [], fetched := lensFetches ++ [Endpoint.openInterestHist] }
          | some oi_usdt =>
            if oi_usdt < MIN_OI_USDT then
              { records := [], fetched := lensFetches ++ [Endpoint.openInterestHist] }
            else
              { records :=
                  (if setup_a then
                    [mkRecord run_id sym "CROWD_SHORT__TOP_LONG" ts_ms oi_usdt
                      ta_long ta_short ga_long ga_short tp_long tp_short fd]
                  else []) ++
                  (if setup_b then
                    [mkRecord run_id sym "CROWD_LONG__TOP_SHORT" ts_ms oi_usdt
                      ta_long ta_short ga_long ga_short tp_long tp_short fd]
                  else [])
                fetched := lensFetches ++
                  [Endpoint.openInterestHist, Endpoint.premiumIndex,
                   Endpoint.ticker24h, Endpoint.klines] }
      else { records := [], fetched := lensFetches }
    | _, _, _, _, _, _ => { records := [], fetched := lensFetches }
  | _, _, _ => { records := [], fetched := lensFetches }

/- ===== Result sink: upsert store (init_db lines 189-211, SQL lines 243-251) =====

`scan_hits` has `PRIMARY KEY (run_id, symbol, setup)` and every write is
`INSERT OR REPLACE`, so the store is a list of rows with unique keys and a
write replaces the row with the same key, if any. -/

/-- The primary key of a `scan_hits` row. -/
def recordKey (r : SignalRecord) : Int × String × String :=
  (r.run_id, r.symbol, r.setup)

/-- `INSERT OR REPLACE INTO scan_hits`: drop any row with the same primary
key, then insert the new row. -/
def upsertSignal (store : List SignalRecord) (r : SignalRecord) : List SignalRecord :=
  r :: store.filter (fun s => !(decide (recordKey s = recordKey r)))

/-- The rows a key selects from the store. -/
def rowsForKey (store : List SignalRecord) (k : Int × String × String) : List SignalRecord :=
  store.filter (fun s => decide (recordKey s = k))

/- ===== HTTP failure handling (http_get_async lines 70-80, retry lines 40-48) ===== -/

/-- Outcome of one underlying HTTP request attempt: a status code with a
body, or a raised exception (timeout, connection error, ...). -/
inductive HttpOutcome where
  | status (code : Nat) (body : String)
  | netError
  deriving DecidableEq, Repr

/-- `http_get_async` (lines 70-80): a 200 response yields its body, any
other status yields `None`, and any exception is caught and yields `None`. -/
def http_get_async (o : HttpOutcome) : Option String :=
  match o with
  | HttpOutcome.status 200 body => some body
  | HttpOutcome.status _ _ => none
  | HttpOutcome.netError => none

/-- `Retry(total=5, ...)` (line 42). -/
def RETRY_TOTAL : Nat := 5

/-- `backoff_factor=0.6` (line 44). -/
def BACKOFF_FACTOR : ℚ := 0.6

/-- `status_forcelist=(429, 500, 502, 503, 504)` (line 45). -/
def STATUS_FORCELIST : List Nat := [429, 500, 502, 503, 504]

/-- A status in the forcelist (or a connection failure) is retried. -/
def isRetryable (o : HttpOutcome) : Bool :=
  match o with
  | HttpOutcome.status c _ => STATUS_FORCELIST.contains c
  | HttpOutcome.netError => true

/-- Modelled from the spec: the backoff schedule of the `urllib3.util.retry.Retry`
object configured at lines 40-48 (the library itself is not part of this
repository): the sleep before retry number `n` is
`backoff_factor * 2^(n-1)`, i.e. exponential in the retry number. -/
def backoffDelay (retryNumber : Nat) : ℚ :=
  BACKOFF_FACTOR * 2 ^ (retryNumber - 1)

/-- Modelled from the spec: the bounded-retry loop of the configured `Retry`
object (library code, not in this repository): issue an attempt; if its
outcome is retryable and retries remain, back off and try again; a
non-retryable outcome is returned as-is; when the attempt budget is
exhausted the result is a typed failure (`none`), never an uncaught raise.
`fetch k` is the outcome of attempt number `k`; the result pairs the final
outcome with the number of attempts actually issued. -/
def retryLoop (fetch : Nat → HttpOutcome) : Nat → Nat → Option HttpOutcome × Nat
  | _, 0 => (none, 0)
  | attempt, remaining + 1 =>
    let o := fetch attempt
    if isRetryable o then
      let res := retryLoop fetch (attempt + 1) remaining
      (res.1, res.2 + 1)
    else
      (some o, 1)

/-- One `session.get` through the configured adapter: at most
`RETRY_TOTAL + 1` requests in total. -/
def http_get_with_retry (fetch : Nat → HttpOutcome) : Option HttpOutcome × Nat :=
  retryLoop fetch 0 (RETRY_TOTAL + 1)

/- ===== Bounded scheduler + sink drain loop (scan_and_store_async lines 237-355) =====

A small-step model of `asyncio.gather(db_writer(), gather(process_symbol ...))`:

* `start`    — a `process_symbol` task acquires the semaphore (line 267;
               only when fewer than 10 tasks hold it) and immediately
               increments `scanned` (line 268);
* `finish`   — a running task completes its fetch cascade, appends its
               records to `insert_queue`, sleeps, and releases the slot;
* `write`    — `db_writer` dequeues one row and commits it (lines 339-342);
* `timeout`  — `db_writer`'s 1-second poll times out on an empty queue and
               `scanned >= total_symbols`, so the loop breaks (lines 343-346).

The run terminates when no step is enabled. -/

structure ScanState where
  pending : List String
  inFlight : List String
  queue : List SignalRecord
  scanned : Nat
  total : Nat
  writerDone : Bool
  inserted : Nat
  deriving DecidableEq, Repr

/-- `Semaphore(10)` (line 262). -/
def SEMAPHORE_LIMIT : Nat := 10

/-- The interleaving steps of the scan; `fd` gives each symbol's network
responses and `run_id` the current run. -/
inductive ScanStep (fd : String → FetchData) (run_id : Int) : ScanState → ScanState → Prop
  | start (s : ScanState) (sym : String) (rest : List String)
      (hp : s.pending = sym :: rest)
      (hsem : s.inFlight.length < SEMAPHORE_LIMIT) :
      ScanStep fd run_id s
        { s with pending := rest, inFlight := s.inFlight ++ [sym],
                 scanned := s.scanned + 1 }
  | finish (s : ScanState) (l1 l2 : List String) (sym : String)
      (hf : s.inFlight = l1 ++ sym :: l2) :
      ScanStep fd run_id s
        { s with inFlight := l1 ++ l2,
                 queue := s.queue ++ (process_symbol run_id sym (fd sym)).records }
  | write (s : ScanState) (r : SignalRecord) (rest : List SignalRecord)
      (hw : s.writerDone = false)
      (hq : s.queue = r :: rest) :
      ScanStep fd run_id s
        { s with queue := rest, inserted := s.inserted + 1 }
  | timeout (s : ScanState)
      (hw : s.writerDone = false)
      (hq : s.queue = [])
      (hs : s.total ≤ s.scanned) :
      ScanStep fd run_id s { s with writerDone := true }

/-- The state `scan_and_store_async` starts from: all symbols pending,
nothing in flight, empty queue, counters zero. -/
def initState (symbols : List String) : ScanState :=
  { pending := symbols, inFlight := [], queue := [],
    scanned := 0, total := symbols.length, writerDone := false, inserted := 0 }

/-- Reachability along scan steps. -/
def ScanReaches (fd : String → FetchData) (run_id : Int) : ScanState → ScanState → Prop :=
  Relation.ReflTransGen (ScanStep fd run_id)

/-- No step is enabled: the `gather` call has returned. -/
def ScanStuck (fd : String → FetchData) (run_id : Int) (s : ScanState) : Prop :=
  ∀ s', ¬ ScanStep fd run_id s s'

/-- Termination measure: every step strictly decreases it. -/
def scanMeasure (s : ScanState) : Nat :=
  4 * s.pending.length + 3 * s.inFlight.length + s.queue.length +
    (if s.writerDone then 0 else 1)

/-- Replace the timestamps of the global-account and top-position lenses,
leaving everything else in place (used to state that those two timestamps
never influence the evaluator's output). -/
def setOtherLensTimes (fd : FetchData) (t1 t2 : Option Int) : FetchData :=
  { fd with
      glob_acc := fd.glob_acc.map fun g => { g with timestamp := t1 },
      top_pos := fd.top_pos.map fun p => { p with timestamp := t2 } }

/- ===== Concrete sample inputs (used by witnesses and counterexamples) ===== -/

/-- A lens snapshot whose fractions satisfy both crowd-short and crowd-long
account thresholds; its timestamp field is absent. -/
def sampleTopAcc : RatioSnapshot :=
  { timestamp := none, longAccount := some 0.66, shortAccount := some 0.66 }

/-- A top-position snapshot satisfying both position thresholds. -/
def sampleTopPos : RatioSnapshot :=
  { timestamp := some 1718000000000, longAccount := some 0.5, shortAccount := some 0.5 }

/-- A fetch result on which both Setup A and Setup B fire and the
open-interest gate passes. -/
def sampleBoth : FetchData :=
  { top_acc := some sampleTopAcc, glob_acc := some sampleTopAcc,
    top_pos := some sampleTopPos,
    oi := some { sumOpenInterestValue := some 3000000 },
    funding_rate := some 0.0001, current_price := some 2.5,
    volume_24h := some 123456, volume_2h := some 7890 }

/-- The Setup A record `process_symbol` emits on `sampleBoth`. -/
def sampleRecordA : SignalRecord :=
  mkRecord 7 "AAAUSDT" "CROWD_SHORT__TOP_LONG" 0 3000000
    0.66 0.66 0.66 0.66 0.5 0.5 sampleBoth

/-- The Setup B record `process_symbol` emits on `sampleBoth`. -/
def sampleRecordB : SignalRecord :=
  mkRecord 7 "AAAUSDT" "CROWD_LONG__TOP_SHORT" 0 3000000
    0.66 0.66 0.66 0.66 0.5 0.5 sampleBoth

/-- A fetch result where every call failed. -/
def emptyFetch : FetchData :=
  { top_acc := none, glob_acc := none, top_pos := none, oi := none,
    funding_rate := none, current_price := none,
    volume_24h := none, volume_2h := none }

/-
===========================================================================
Theorems
===========================================================================
-/

/- ===== Helper lemmas about the evaluator ===== -/

/-- Any record `process_symbol` emits comes from the unique successful path:
all three lenses present, all six fractions parsed, open interest parsed and
at least the minimum, and the record is the `mkRecord` of the setup whose
predicate held. -/
theorem process_symbol_mem_shape (run_id : Int) (sym : String) (fd : FetchData)
    (r : SignalRecord) (hr : r ∈ (process_symbol run_id sym fd).records) :
    ∃ ta ga tp ta_long ta_short ga_long ga_short tp_long tp_short oi v,
      fd.top_acc = some ta ∧ fd.glob_acc = some ga ∧ fd.top_pos = some tp ∧
      ta.longAccount = some ta_long ∧ ta.shortAccount = some ta_short ∧
      ga.longAccount = some ga_long ∧ ga.shortAccount = some ga_short ∧
      tp.longAccount = some tp_long ∧ tp.shortAccount = some tp_short ∧
      fd.oi = some oi ∧ oi.sumOpenInterestValue = some v ∧ MIN_OI_USDT ≤ v ∧
      ((setup_a_holds ta_short ga_short tp_long = true ∧
          r = mkRecord run_id sym "CROWD_SHORT__TOP_LONG" (ta.timestamp.getD 0) v
                ta_long ta_short ga_long ga_short tp_long tp_short fd) ∨
        (setup_b_holds ta_long ga_long tp_short = true ∧
          r = mkRecord run_id sym "CROWD_LONG__TOP_SHORT" (ta.timestamp.getD 0) v
                ta_long ta_short ga_long ga_short tp_long tp_short fd)) := by
  obtain ⟨ota, oga, otp, ooi, fr, cp, v4, v2⟩ := fd
  rcases ota with _ | ⟨tts, tlo, tso⟩ <;>
    try simp [process_symbol, apply_ite EvalResult.records] at hr
  rcases oga with _ | ⟨gts, glo, gso⟩ <;>
    try simp [process_symbol, apply_ite EvalResult.records] at hr
  rcases otp with _ | ⟨pts, plo, pso⟩ <;>
    try simp [process_symbol, apply_ite EvalResult.records] at hr
  rcases tlo with _ | taLong <;>
    try simp [process_symbol, apply_ite EvalResult.records] at hr
  rcases tso with _ | taShort <;>
    try simp [process_symbol, apply_ite EvalResult.records] at hr
  rcases glo with _ | gaLong <;>
    try simp [process_symbol, apply_ite EvalResult.records] at hr
  rcases gso with _ | gaShort <;>
    try simp [process_symbol, apply_ite EvalResult.records] at hr
  rcases plo with _ | tpLong <;>
    try simp [process_symbol, apply_ite EvalResult.records] at hr
  rcases pso with _ | tpShort <;>
    try simp [process_symbol, apply_ite EvalResult.records] at hr
  rcases ooi with _ | ⟨osum⟩ <;>
    try simp [process_symbol, apply_ite EvalResult.records] at hr
  rcases osum with _ | v <;>
    try simp [process_symbol, apply_ite EvalResult.records] at hr
  obtain ⟨hpass, hmin, hcase⟩ := hr
  exact ⟨_, _, _, taLong, taShort, gaLong, gaShort, tpLong, tpShort, _, v,
    rfl, rfl, rfl, rfl, rfl, rfl, rfl, rfl, rfl, rfl, rfl, hmin, hcase⟩

/-- `process_symbol` never emits more than two records. -/
theorem process_symbol_records_length_le (run_id : Int) (sym : String) (fd : FetchData) :
    (process_symbol run_id sym fd).records.length ≤ 2 := by
  unfold process_symbol
  dsimp only
  repeat' split
  all_goals simp

/-- Evaluating `process_symbol` on the both-setups sample input. -/
theorem sampleBoth_records_eq :
    (process_symbol 7 "AAAUSDT" sampleBoth).records = [sampleRecordA, sampleRecordB] := by
  norm_num [process_symbol, sampleBoth, sampleTopAcc, sampleTopPos,
    setup_a_holds, setup_b_holds, TOP_ACC_SHORT_MIN, GLOBAL_ACC_SHORT_MIN,
    TOP_POS_LONG_MIN, TOP_ACC_LONG_MIN, GLOBAL_ACC_LONG_MIN, TOP_POS_SHORT_MIN,
    MIN_OI_USDT, sampleRecordA, sampleRecordB, mkRecord]

/- ===== C1 ===== -/

/-- C1: every record the evaluator emits passed its setup-kind's three
cheap-filter threshold conditions on the stored fractions, and the fetched
open-interest value was present and at least `MIN_OI_USDT`; no record exists
for an instrument that failed any gate. -/
theorem signal_records_passed_all_gates (run_id : Int) (sym : String) (fd : FetchData)
    (r : SignalRecord) (hr : r ∈ (process_symbol run_id sym fd).records) :
    (∃ oi v, fd.oi = some oi ∧ oi.sumOpenInterestValue = some v ∧
      r.oi_usdt = v ∧ MIN_OI_USDT ≤ v) ∧
    ((r.setup = "CROWD_SHORT__TOP_LONG" ∧
        TOP_ACC_SHORT_MIN ≤ r.top_acc_short ∧
        GLOBAL_ACC_SHORT_MIN ≤ r.glob_acc_short ∧
        TOP_POS_LONG_MIN ≤ r.top_pos_long) ∨
      (r.setup = "CROWD_LONG__TOP_SHORT" ∧
        TOP_ACC_LONG_MIN ≤ r.top_acc_long ∧
        GLOBAL_ACC_LONG_MIN ≤ r.glob_acc_long ∧
        TOP_POS_SHORT_MIN ≤ r.top_pos_short)) := by
  obtain ⟨ta, ga, tp, tal, tas, gal, gas, tpl, tps, oi, v,
    hta, hga, htp, h1, h2, h3, h4, h5, h6, hoi, hv, hmin, hcase⟩ :=
    process_symbol_mem_shape run_id sym fd r hr
  rcases hcase with ⟨hA, rfl⟩ | ⟨hB, rfl⟩
  · simp only [setup_a_holds, Bool.and_eq_true, decide_eq_true_eq] at hA
    exact ⟨⟨oi, v, hoi, hv, rfl, hmin⟩,
      Or.inl ⟨rfl, hA.1.1, hA.1.2, hA.2⟩⟩
  · simp only [setup_b_holds, Bool.and_eq_true, decide_eq_true_eq] at hB
    exact ⟨⟨oi, v, hoi, hv, rfl, hmin⟩,
      Or.inr ⟨rfl, hB.1.1, hB.1.2, hB.2⟩⟩

/-- C1 witness: the gate conclusion evaluated on the concrete sample input
and the Setup A record it emits. -/
theorem signal_records_passed_all_gates_witness :
    sampleRecordA ∈ (process_symbol 7 "AAAUSDT" sampleBoth).records ∧
    ((∃ oi v, sampleBoth.oi = some oi ∧ oi.sumOpenInterestValue = some v ∧
      sampleRecordA.oi_usdt = v ∧ MIN_OI_USDT ≤ v) ∧
    ((sampleRecordA.setup = "CROWD_SHORT__TOP_LONG" ∧
        TOP_ACC_SHORT_MIN ≤ sampleRecordA.top_acc_short ∧
        GLOBAL_ACC_SHORT_MIN ≤ sampleRecordA.glob_acc_short ∧
        TOP_POS_LONG_MIN ≤ sampleRecordA.top_pos_long) ∨
      (sampleRecordA.setup = "CROWD_LONG__TOP_SHORT" ∧
        TOP_ACC_LONG_MIN ≤ sampleRecordA.top_acc_long ∧
        GLOBAL_ACC_LONG_MIN ≤ sampleRecordA.glob_acc_long ∧
        TOP_POS_SHORT_MIN ≤ sampleRecordA.top_pos_short))) :=
  have hmem : sampleRecordA ∈ (process_symbol 7 "AAAUSDT" sampleBoth).records := by
    rw [sampleBoth_records_eq]; exact List.mem_cons_self _ _
  ⟨hmem, signal_records_passed_all_gates 7 "AAAUSDT" sampleBoth sampleRecordA hmem⟩

/- ===== C2 ===== -/

/-- C2: the Setup A predicate holds iff top-account-short ≥ 0.65,
global-account-short ≥ 0.65 and top-position-long ≥ 0.45, and the Setup B
predicate is the mirror image over the same six fractions: top-account-long
≥ 0.65, global-account-long ≥ 0.65, top-position-short ≥ 0.45; each
predicate depends only on its own three fractions, so the two are evaluated
independently. -/
theorem setup_predicates_iff (ta_long ta_short ga_long ga_short tp_long tp_short : ℚ) :
    (setup_a_holds ta_short ga_short tp_long = true ↔
      (0.65 : ℚ) ≤ ta_short ∧ (0.65 : ℚ) ≤ ga_short ∧ (0.45 : ℚ) ≤ tp_long) ∧
    (setup_b_holds ta_long ga_long tp_short = true ↔
      (0.65 : ℚ) ≤ ta_long ∧ (0.65 : ℚ) ≤ ga_long ∧ (0.45 : ℚ) ≤ tp_short) := by
  simp [setup_a_holds, setup_b_holds, TOP_ACC_SHORT_MIN, GLOBAL_ACC_SHORT_MIN,
    TOP_POS_LONG_MIN, TOP_ACC_LONG_MIN, GLOBAL_ACC_LONG_MIN, TOP_POS_SHORT_MIN,
    and_assoc]

/- ===== C3 ===== -/

/-- C3 counterexample: on a concrete input satisfying both setups and the
open-interest gate, the two emitted records carry the tags
`CROWD_SHORT__TOP_LONG` and `CROWD_LONG__TOP_SHORT` (double underscore),
not the claimed `CROWD_SHORT_TOP_LONG` / `CROWD_LONG_TOP_SHORT`. -/
theorem setup_tags_not_as_claimed :
    (process_symbol 7 "AAAUSDT" sampleBoth).records.map SignalRecord.setup =
      ["CROWD_SHORT__TOP_LONG", "CROWD_LONG__TOP_SHORT"] ∧
    ("CROWD_SHORT__TOP_LONG" : String) ≠ "CROWD_SHORT_TOP_LONG" ∧
    ("CROWD_LONG__TOP_SHORT" : String) ≠ "CROWD_LONG_TOP_SHORT" := by
  refine ⟨?_, by decide, by decide⟩
  rw [sampleBoth_records_eq]
  simp [sampleRecordA, sampleRecordB, mkRecord]

/-- C3 (amended: the setup tags in the code are `CROWD_SHORT__TOP_LONG` and
`CROWD_LONG__TOP_SHORT`, with a double underscore): when both setups hold
and the open-interest gate passes, the evaluator emits exactly two records
that agree on every field and differ only in the setup tag. -/
theorem both_setups_emit_two_records (run_id : Int) (sym : String) (fd : FetchData)
    (ta ga tp : RatioSnapshot)
    (ta_long ta_short ga_long ga_short tp_long tp_short : ℚ)
    (oi : OpenInterestRow) (v : ℚ)
    (hta : fd.top_acc = some ta) (hga : fd.glob_acc = some ga) (htp : fd.top_pos = some tp)
    (h1 : ta.longAccount = some ta_long) (h2 : ta.shortAccount = some ta_short)
    (h3 : ga.longAccount = some ga_long) (h4 : ga.shortAccount = some ga_short)
    (h5 : tp.longAccount = some tp_long) (h6 : tp.shortAccount = some tp_short)
    (ha : setup_a_holds ta_short ga_short tp_long = true)
    (hb : setup_b_holds ta_long ga_long tp_short = true)
    (hoi : fd.oi = some oi) (hv : oi.sumOpenInterestValue = some v)
    (hmin : MIN_OI_USDT ≤ v) :
    ∃ rA rB, (process_symbol run_id sym fd).records = [rA, rB] ∧
      rA.setup = "CROWD_SHORT__TOP_LONG" ∧
      rB = { rA with setup := "CROWD_LONG__TOP_SHORT" } := by
  refine ⟨mkRecord run_id sym "CROWD_SHORT__TOP_LONG" (ta.timestamp.getD 0) v
      ta_long ta_short ga_long ga_short tp_long tp_short fd,
    mkRecord run_id sym "CROWD_LONG__TOP_SHORT" (ta.timestamp.getD 0) v
      ta_long ta_short ga_long ga_short tp_long tp_short fd, ?_, rfl, rfl⟩
  simp [process_symbol, hta, hga, htp, h1, h2, h3, h4, h5, h6, hoi, hv, ha, hb,
    not_lt.mpr hmin]

/-- C3 witness: the amended statement evaluated on the concrete both-setups
sample input. -/
theorem both_setups_emit_two_records_witness :
    ∃ rA rB, (process_symbol 7 "AAAUSDT" sampleBoth).records = [rA, rB] ∧
      rA.setup = "CROWD_SHORT__TOP_LONG" ∧
      rB = { rA with setup := "CROWD_LONG__TOP_SHORT" } :=
  both_setups_emit_two_records 7 "AAAUSDT" sampleBoth
    sampleTopAcc sampleTopAcc sampleTopPos 0.66 0.66 0.66 0.66 0.5 0.5
    { sumOpenInterestValue := some 3000000 } 3000000
    rfl rfl rfl rfl rfl rfl rfl rfl rfl
    (by norm_num [setup_a_holds, TOP_ACC_SHORT_MIN, GLOBAL_ACC_SHORT_MIN, TOP_POS_LONG_MIN])
    (by norm_num [setup_b_holds, TOP_ACC_LONG_MIN, GLOBAL_ACC_LONG_MIN, TOP_POS_SHORT_MIN])
    rfl rfl
    (by norm_num [MIN_OI_USDT])

/- ===== C4 ===== -/

/-- Filtering for a key after removing every row with that key gives
nothing. -/
theorem filter_key_of_removed (l : List SignalRecord) (k : Int × String × String) :
    (l.filter fun s => !(decide (recordKey s = k))).filter
      (fun s => decide (recordKey s = k)) = [] := by
  induction l with
  | nil => rfl
  | cons a t ih => by_cases h : recordKey a = k <;> simp [h, ih]

/-- C4: after writing two records with the same (run id, symbol, setup) key,
exactly the later record is stored for that key; and writing any record
twice in succession leaves the store exactly as writing it once (upsert
idempotence). -/
theorem upsert_latest_wins_and_idempotent (store : List SignalRecord)
    (r1 r2 : SignalRecord) (hkey : recordKey r1 = recordKey r2) :
    rowsForKey (upsertSignal (upsertSignal store r1) r2) (recordKey r2) = [r2] ∧
    ∀ (s : List SignalRecord) (r : SignalRecord),
      upsertSignal (upsertSignal s r) r = upsertSignal s r := by
  constructor
  · simp only [upsertSignal, rowsForKey]
    rw [List.filter_cons_of_pos (by simp), List.filter_cons_of_neg (by simp [hkey])]
    rw [filter_key_of_removed]
  · intro s r
    simp only [upsertSignal]
    rw [List.filter_cons_of_neg (by simp), List.filter_filter]
    simp

/-- C4 witness: two concrete records with the same key; the second write
wins and double-writing is idempotent. -/
theorem upsert_latest_wins_and_idempotent_witness :
    recordKey sampleRecordA = recordKey sampleRecordA ∧
    (rowsForKey (upsertSignal (upsertSignal [] sampleRecordA) sampleRecordA)
        (recordKey sampleRecordA) = [sampleRecordA] ∧
      ∀ (s : List SignalRecord) (r : SignalRecord),
        upsertSignal (upsertSignal s r) r = upsertSignal s r) :=
  ⟨rfl, upsert_latest_wins_and_idempotent [] sampleRecordA sampleRecordA rfl⟩

/- ===== C7 ===== -/

/-- C7: if any ratio lens returned no data or any of the six fractions
failed to parse, the evaluator emits zero records and fetches nothing
beyond the three lens endpoints (no open-interest or enrichment call). -/
theorem missing_lens_aborts (run_id : Int) (sym : String) (fd : FetchData)
    (h : fd.top_acc = none ∨ fd.glob_acc = none ∨ fd.top_pos = none ∨
      (∃ ta, fd.top_acc = some ta ∧ (ta.longAccount = none ∨ ta.shortAccount = none)) ∨
      (∃ ga, fd.glob_acc = some ga ∧ (ga.longAccount = none ∨ ga.shortAccount = none)) ∨
      (∃ tp, fd.top_pos = some tp ∧ (tp.longAccount = none ∨ tp.shortAccount = none))) :
    (process_symbol run_id sym fd).records = [] ∧
    (process_symbol run_id sym fd).fetched = lensFetches := by
  obtain ⟨ota, oga, otp, ooi, fr, cp, v4, v2⟩ := fd
  rcases ota with _ | ⟨tts, tlo, tso⟩
  · exact ⟨by simp [process_symbol], by simp [process_symbol]⟩
  rcases oga with _ | ⟨gts, glo, gso⟩
  · exact ⟨by simp [process_symbol], by simp [process_symbol]⟩
  rcases otp with _ | ⟨pts, plo, pso⟩
  · exact ⟨by simp [process_symbol], by simp [process_symbol]⟩
  simp only [Option.some.injEq, reduceCtorEq, false_or, exists_eq_left'] at h
  rcases tlo with _ | a1 <;> rcases tso with _ | a2 <;> rcases glo with _ | a3 <;>
    rcases gso with _ | a4 <;> rcases plo with _ | a5 <;> rcases pso with _ | a6 <;>
    simp_all [process_symbol]

/-- C7 witness: the lens-failure conclusion evaluated where the top-account
lens returned no data. -/
theorem missing_lens_aborts_witness :
    emptyFetch.top_acc = none ∧
    ((process_symbol 7 "AAAUSDT" emptyFetch).records = [] ∧
      (process_symbol 7 "AAAUSDT" emptyFetch).fetched = lensFetches) :=
  ⟨rfl, missing_lens_aborts 7 "AAAUSDT" emptyFetch (Or.inl rfl)⟩

/- ===== C8 ===== -/

/-- The retry loop issues at most as many attempts as its budget. -/
theorem retryLoop_attempts_le (fetch : Nat → HttpOutcome) :
    ∀ budget attempt, (retryLoop fetch attempt budget).2 ≤ budget := by
  intro budget
  induction budget with
  | zero => intro attempt; simp [retryLoop]
  | succ n ih =>
    intro attempt
    simp only [retryLoop]
    split
    · exact Nat.succ_le_succ (ih (attempt + 1))
    · simp

/-- C8: the HTTP client's retry is bounded (at most `RETRY_TOTAL + 1 = 6`
requests per call) with an exponentially growing backoff schedule, and in
the async path any outcome other than a 200 status — any other status code
or a raised exception — yields `None` instead of propagating an error. -/
theorem http_failure_handling (fetch : Nat → HttpOutcome) (n : Nat) (hn : 1 ≤ n)
    (o : HttpOutcome) (ho : ∀ b, o ≠ HttpOutcome.status 200 b) :
    (http_get_with_retry fetch).2 ≤ RETRY_TOTAL + 1 ∧
    backoffDelay (n + 1) = 2 * backoffDelay n ∧
    http_get_async o = none := by
  refine ⟨retryLoop_attempts_le fetch (RETRY_TOTAL + 1) 0, ?_, ?_⟩
  · obtain ⟨m, rfl⟩ : ∃ m, n = m + 1 := ⟨n - 1, (Nat.succ_pred_eq_of_pos hn).symm⟩
    simp only [backoffDelay, Nat.add_sub_cancel]
    rw [pow_succ]; ring
  · cases o with
    | netError => rfl
    | status c b =>
      have hc : c ≠ 200 := fun h => ho b (by rw [h])
      simp [http_get_async, hc]

/-- C8 witness: the bound, the backoff step and the none-result evaluated
at an always-failing fetch, retry number 1, and a raised-exception outcome. -/
theorem http_failure_handling_witness :
    (1 ≤ 1 ∧ ∀ b, HttpOutcome.netError ≠ HttpOutcome.status 200 b) ∧
    ((http_get_with_retry fun _ => HttpOutcome.netError).2 ≤ RETRY_TOTAL + 1 ∧
      backoffDelay (1 + 1) = 2 * backoffDelay 1 ∧
      http_get_async HttpOutcome.netError = none) :=
  ⟨⟨le_refl 1, fun b h => HttpOutcome.noConfusion h⟩,
    http_failure_handling (fun _ => HttpOutcome.netError) 1 (le_refl 1)
      HttpOutcome.netError (fun b h => HttpOutcome.noConfusion h)⟩

/- ===== C9 ===== -/

/-- C9: for an instrument that passed the cheap filter, an open-interest
value exactly equal to `MIN_OI_USDT` passes the gate (inclusive ≥), while a
strictly smaller, missing or unparseable value yields zero records. -/
theorem oi_gate_inclusive_min (run_id : Int) (sym : String) (fd : FetchData)
    (ta ga tp : RatioSnapshot)
    (ta_long ta_short ga_long ga_short tp_long tp_short : ℚ)
    (hta : fd.top_acc = some ta) (hga : fd.glob_acc = some ga) (htp : fd.top_pos = some tp)
    (h1 : ta.longAccount = some ta_long) (h2 : ta.shortAccount = some ta_short)
    (h3 : ga.longAccount = some ga_long) (h4 : ga.shortAccount = some ga_short)
    (h5 : tp.longAccount = some tp_long) (h6 : tp.shortAccount = some tp_short)
    (hpass : (setup_a_holds ta_short ga_short tp_long ||
      setup_b_holds ta_long ga_long tp_short) = true) :
    (fd.oi = some { sumOpenInterestValue := some MIN_OI_USDT } →
      (process_symbol run_id sym fd).records ≠ []) ∧
    (∀ oi v, fd.oi = some oi → oi.sumOpenInterestValue = some v →
      v < MIN_OI_USDT → (process_symbol run_id sym fd).records = []) ∧
    (fd.oi = none → (process_symbol run_id sym fd).records = []) ∧
    (∀ oi, fd.oi = some oi → oi.sumOpenInterestValue = none →
      (process_symbol run_id sym fd).records = []) := by
  have hpass' := hpass
  simp only [Bool.or_eq_true] at hpass'
  refine ⟨?_, ?_, ?_, ?_⟩
  · intro hoi
    rcases hpass' with hS | hS <;>
      simp [process_symbol, hta, hga, htp, h1, h2, h3, h4, h5, h6, hoi, hS,
        lt_irrefl]
  · intro oi v hoi hv hlt
    simp [process_symbol, hta, hga, htp, h1, h2, h3, h4, h5, h6, hoi, hv, hlt, hpass]
  · intro hoi
    simp [process_symbol, hta, hga, htp, h1, h2, h3, h4, h5, h6, hoi, hpass]
  · intro oi hoi hv
    simp [process_symbol, hta, hga, htp, h1, h2, h3, h4, h5, h6, hoi, hv, hpass]

/-- C9 witness: the gate conclusion evaluated on the both-setups sample
fractions. -/
theorem oi_gate_inclusive_min_witness :
    (setup_a_holds 0.66 0.66 0.5 || setup_b_holds 0.66 0.66 0.5) = true ∧
    ((sampleBoth.oi = some { sumOpenInterestValue := some MIN_OI_USDT } →
      (process_symbol 7 "AAAUSDT" sampleBoth).records ≠ []) ∧
    (∀ oi v, sampleBoth.oi = some oi → oi.sumOpenInterestValue = some v →
      v < MIN_OI_USDT → (process_symbol 7 "AAAUSDT" sampleBoth).records = []) ∧
    (sampleBoth.oi = none → (process_symbol 7 "AAAUSDT" sampleBoth).records = []) ∧
    (∀ oi, sampleBoth.oi = some oi → oi.sumOpenInterestValue = none →
      (process_symbol 7 "AAAUSDT" sampleBoth).records = [])) :=
  have hpass : (setup_a_holds 0.66 0.66 0.5 || setup_b_holds 0.66 0.66 0.5) = true := by
    norm_num [setup_a_holds, setup_b_holds, TOP_ACC_SHORT_MIN, GLOBAL_ACC_SHORT_MIN,
      TOP_POS_LONG_MIN, TOP_ACC_LONG_MIN, GLOBAL_ACC_LONG_MIN, TOP_POS_SHORT_MIN]
  ⟨hpass, oi_gate_inclusive_min 7 "AAAUSDT" sampleBoth
    sampleTopAcc sampleTopAcc sampleTopPos 0.66 0.66 0.66 0.66 0.5 0.5
    rfl rfl rfl rfl rfl rfl rfl rfl rfl hpass⟩

/- ===== C10 ===== -/

/-- C10: every emitted record's timestamp comes from the top-account lens
snapshot alone, defaulting to 0 when that field is absent (the record is
still stored); replacing the timestamps of the other two lenses never
changes the evaluator's records. -/
theorem timestamp_only_from_top_acc (run_id : Int) (sym : String) (fd : FetchData)
    (r : SignalRecord) (hr : r ∈ (process_symbol run_id sym fd).records) :
    (∃ ta, fd.top_acc = some ta ∧ r.timestamp_ms = ta.timestamp.getD 0 ∧
      (ta.timestamp = none → r.timestamp_ms = 0)) ∧
    (∀ t1 t2, (process_symbol run_id sym (setOtherLensTimes fd t1 t2)).records =
      (process_symbol run_id sym fd).records) := by
  constructor
  · obtain ⟨ta, ga, tp, tal, tas, gal, gas, tpl, tps, oi, v,
      hta, hga, htp, h1, h2, h3, h4, h5, h6, hoi, hv, hmin, hcase⟩ :=
      process_symbol_mem_shape run_id sym fd r hr
    rcases hcase with ⟨_, rfl⟩ | ⟨_, rfl⟩ <;>
      exact ⟨ta, hta, rfl, fun h => by simp [mkRecord, h]⟩
  · intro t1 t2
    clear hr
    obtain ⟨ota, oga, otp, ooi, fr, cp, v4, v2⟩ := fd
    rcases ota with _ | ⟨tts, tlo, tso⟩
    · simp [process_symbol, setOtherLensTimes]
    rcases oga with _ | ⟨gts, glo, gso⟩
    · simp [process_symbol, setOtherLensTimes]
    rcases otp with _ | ⟨pts, plo, pso⟩
    · simp [process_symbol, setOtherLensTimes]
    rcases tlo with _ | a1 <;> rcases tso with _ | a2 <;> rcases glo with _ | a3 <;>
      rcases gso with _ | a4 <;> rcases plo with _ | a5 <;> rcases pso with _ | a6 <;>
      simp [process_symbol, setOtherLensTimes, mkRecord]

/-- C10 witness: on the sample input the top-account timestamp is absent
and both emitted records are stored with timestamp 0; moving the other two
lens timestamps changes nothing. -/
theorem timestamp_only_from_top_acc_witness :
    sampleRecordA ∈ (process_symbol 7 "AAAUSDT" sampleBoth).records ∧
    ((∃ ta, sampleBoth.top_acc = some ta ∧
        sampleRecordA.timestamp_ms = ta.timestamp.getD 0 ∧
        (ta.timestamp = none → sampleRecordA.timestamp_ms = 0)) ∧
      (∀ t1 t2, (process_symbol 7 "AAAUSDT" (setOtherLensTimes sampleBoth t1 t2)).records =
        (process_symbol 7 "AAAUSDT" sampleBoth).records)) :=
  have hmem : sampleRecordA ∈ (process_symbol 7 "AAAUSDT" sampleBoth).records := by
    rw [sampleBoth_records_eq]; exact List.mem_cons_self _ _
  ⟨hmem, timestamp_only_from_top_acc 7 "AAAUSDT" sampleBoth sampleRecordA hmem⟩

/- ===== C5 / C6: the scheduler transition system ===== -/

/-- Each step preserves the invariant scanned + |pending| = total (the
scanned counter is incremented exactly when a symbol leaves the pending
list) and never changes the total. -/
theorem scanStep_preserves_count (fd : String → FetchData) (run_id : Int)
    {s s' : ScanState} (h : ScanStep fd run_id s s') :
    s'.scanned + s'.pending.length = s.scanned + s.pending.length ∧
    s'.total = s.total := by
  cases h with
  | start sym rest hp hsem => refine ⟨?_, rfl⟩; simp [hp]; omega
  | finish l1 l2 sym hf => exact ⟨rfl, rfl⟩
  | write r rest hw hq => exact ⟨rfl, rfl⟩
  | timeout hw hq hs => exact ⟨rfl, rfl⟩

/-- In every reachable state, scanned + |pending| = total = |symbols|. -/
theorem reaches_count_invariant (fd : String → FetchData) (run_id : Int)
    (symbols : List String) {s : ScanState}
    (h : ScanReaches fd run_id (initState symbols) s) :
    s.scanned + s.pending.length = s.total ∧ s.total = symbols.length := by
  induction h with
  | refl => simp [initState]
  | tail hab hbc ih =>
      obtain ⟨h1, h2⟩ := scanStep_preserves_count fd run_id hbc
      omega

/-- Every scan step strictly decreases the termination measure, so no
infinite run exists. -/
theorem scanStep_measure_decreases (fd : String → FetchData) (run_id : Int)
    {s s' : ScanState} (h : ScanStep fd run_id s s') :
    scanMeasure s' < scanMeasure s := by
  cases h with
  | start sym rest hp hsem =>
      cases hwd : s.writerDone <;> simp [scanMeasure, hp, hwd] <;> omega
  | finish l1 l2 sym hf =>
      have hrec := process_symbol_records_length_le run_id sym (fd sym)
      cases hwd : s.writerDone <;> simp [scanMeasure, hf, hwd] <;> omega
  | write r rest hw hq =>
      simp [scanMeasure, hq, hw]
  | timeout hw hq hs =>
      simp [scanMeasure, hq, hw]

/-- A reachable state in which no step is enabled has dispatched every
symbol, drained its in-flight set, and broken out of the writer loop. -/
theorem stuck_characterization (fd : String → FetchData) (run_id : Int)
    (symbols : List String) {s : ScanState}
    (hreach : ScanReaches fd run_id (initState symbols) s)
    (hstuck : ScanStuck fd run_id s) :
    s.pending = [] ∧ s.inFlight = [] ∧ s.writerDone = true ∧
      s.scanned = symbols.length := by
  obtain ⟨hcount, htotal⟩ := reaches_count_invariant fd run_id symbols hreach
  have hif : s.inFlight = [] := by
    cases hIF : s.inFlight with
    | nil => rfl
    | cons a t =>
        exact absurd (ScanStep.finish s [] t a (by simpa using hIF)) (hstuck _)
  have hp : s.pending = [] := by
    cases hP : s.pending with
    | nil => rfl
    | cons a t =>
        refine absurd (ScanStep.start s a t hP ?_) (hstuck _)
        rw [hif]; simp [SEMAPHORE_LIMIT]
  have hsc : s.scanned = symbols.length := by
    rw [hp] at hcount; simp at hcount; omega
  have hwd : s.writerDone = true := by
    cases hW : s.writerDone
    · cases hQ : s.queue with
      | nil => exact absurd (ScanStep.timeout s hW hQ (by omega)) (hstuck _)
      | cons r rest => exact absurd (ScanStep.write s r rest hW hQ) (hstuck _)
    · rfl
  exact ⟨hp, hif, hwd, hsc⟩

/-- C5: from the initial state of a finite symbol list, every step of the
scan strictly decreases a natural-number measure (each evaluation completes
in finitely many steps, so the run terminates), and any reachable state
from which no step is enabled — the writer loop has timed out on an empty
queue after the scanned counter reached the total — reports a scanned
count equal to the length of the input symbol list. -/
theorem scan_terminates_with_full_count (fd : String → FetchData) (run_id : Int)
    (symbols : List String) (s : ScanState)
    (hreach : ScanReaches fd run_id (initState symbols) s) :
    (∀ s', ScanStep fd run_id s s' → scanMeasure s' < scanMeasure s) ∧
    (ScanStuck fd run_id s →
      s.writerDone = true ∧ s.scanned = symbols.length) := by
  refine ⟨fun s' h => scanStep_measure_decreases fd run_id h, fun hstuck => ?_⟩
  obtain ⟨_, _, hwd, hsc⟩ := stuck_characterization fd run_id symbols hreach hstuck
  exact ⟨hwd, hsc⟩

/-- C5 witness: the termination conclusion evaluated at the initial state
of a one-symbol scan. -/
theorem scan_terminates_with_full_count_witness :
    ScanReaches (fun _ => emptyFetch) 1 (initState ["BTCUSDT"]) (initState ["BTCUSDT"]) ∧
    ((∀ s', ScanStep (fun _ => emptyFetch) 1 (initState ["BTCUSDT"]) s' →
        scanMeasure s' < scanMeasure (initState ["BTCUSDT"])) ∧
      (ScanStuck (fun _ => emptyFetch) 1 (initState ["BTCUSDT"]) →
        (initState ["BTCUSDT"]).writerDone = true ∧
        (initState ["BTCUSDT"]).scanned = (["BTCUSDT"] : List String).length)) :=
  ⟨Relation.ReflTransGen.refl,
    scan_terminates_with_full_count (fun _ => emptyFetch) 1 ["BTCUSDT"]
      (initState ["BTCUSDT"]) Relation.ReflTransGen.refl⟩

/-- C6: in every reachable state of the scan, at most `SEMAPHORE_LIMIT = 10`
per-symbol evaluations are inside their network-bound phase (hold the
semaphore); a further symbol can only start once a slot frees. -/
theorem concurrency_bounded_by_semaphore (fd : String → FetchData) (run_id : Int)
    (symbols : List String) (s : ScanState)
    (hreach : ScanReaches fd run_id (initState symbols) s) :
    s.inFlight.length ≤ SEMAPHORE_LIMIT := by
  induction hreach with
  | refl => simp [initState]
  | tail hab hbc ih =>
      cases hbc with
      | start sym rest hp hsem =>
          simp only [List.length_append, List.length_cons, List.length_nil]
          omega
      | finish l1 l2 sym hf =>
          rw [hf] at ih
          simp only [List.length_append, List.length_cons] at ih ⊢
          omega
      | write r rest hw hq => exact ih
      | timeout hw hq hs => exact ih

/-- C6 witness: the semaphore bound evaluated at the initial state of a
one-symbol scan. -/
theorem concurrency_bounded_by_semaphore_witness :
    ScanReaches (fun _ => emptyFetch) 1 (initState ["BTCUSDT"]) (initState ["BTCUSDT"]) ∧
    (initState ["BTCUSDT"]).inFlight.length ≤ SEMAPHORE_LIMIT :=
  ⟨Relation.ReflTransGen.refl,
    concurrency_bounded_by_semaphore (fun _ => emptyFetch) 1 ["BTCUSDT"]
      (initState ["BTCUSDT"]) Relation.ReflTransGen.refl⟩

end CryptoScan
